import Mathlib

/-!
Verification of the teleporter dispatch core against its specification.

Python floats are modelled as exact rationals (ℚ); Python `round(x, 2)` is
modelled as round-half-up to two decimals (`pyRound2`); Python `int(x)` is
modelled as truncation toward zero (`pyTrunc`).  External collaborators
(Redis, bcrypt, the geo-distance provider, the OR-Tools solver) are modelled
as explicit state or oracle parameters, mirroring the values the source code
obtains from them.
-/

/-- Python round(x, 2): round to the nearest multiple of 1/100 (half up). -/
def pyRound2 (q : ℚ) : ℚ := (Int.floor (q * 100 + 1 / 2) : ℚ) / 100

/-- Python int(x): truncation toward zero. -/
def pyTrunc (q : ℚ) : ℤ := if 0 ≤ q then Int.floor q else -Int.floor (-q)

namespace Pricing

/-- RATE_PER_KM constant from services/pricing.py. -/
def RATE_PER_KM : ℚ := 10

/-- MINIMUM_CHARGE constant from services/pricing.py. -/
def MINIMUM_CHARGE : ℚ := 35

/-- BATCH_DISCOUNT_PCT constant from services/pricing.py. -/
def BATCH_DISCOUNT_PCT : ℚ := 15 / 100

/-- WEIGHT_TO_VEHICLE.get(weight_tier, "BIKE") from services/pricing.py. -/
def determine_vehicle (weight_tier : String) : String :=
  if weight_tier = "LIGHT" then "BIKE"
  else if weight_tier = "MEDIUM" then "AUTO"
  else if weight_tier = "HEAVY" then "VAN"
  else "BIKE"

/-- VEHICLE_MULTIPLIER dict lookup.  In calculate_price the key is always an
output of determine_vehicle, so the catch-all branch is unreachable there. -/
def vehicleMultiplier (vehicle : String) : ℚ :=
  if vehicle = "BIKE" then 1
  else if vehicle = "AUTO" then 13 / 10
  else if vehicle = "VAN" then 8 / 5
  else 1

/-- TIME_FACTOR.get(key, 1.0) from services/pricing.py. -/
def timeFactor (key : String) : ℚ :=
  if key = "NEXT_DAY" then 9 / 10
  else if key = "STANDARD" then 1
  else if key = "SAME_DAY" then 13 / 10
  else if key = "EXPRESS" then 9 / 5
  else 1

/-- ADDON_PRICES.get(addon, 0.0) from services/pricing.py. -/
def addonPrice (addon : String) : ℚ :=
  if addon = "PRIORITY_HANDLING" then 30
  else if addon = "PHOTO_PROOF" then 10
  else if addon = "INSURANCE_5K" then 25
  else if addon = "INSURANCE_25K" then 75
  else if addon = "SCHEDULED_SLOT" then 20
  else if addon = "RETURN_SERVICE" then 15
  else 0

/-- SUBSCRIPTION_PLANS.get(plan, \x7b\x7d).get("discount_pct", 0.0). -/
def planDiscountPct (plan : String) : ℚ :=
  if plan = "STARTER" then 0
  else if plan = "BUSINESS" then 5 / 100
  else if plan = "ENTERPRISE" then 10 / 100
  else 0

/-- RIDER_SURGE_SHARE constant from services/pricing.py. -/
def RIDER_SURGE_SHARE : ℚ := 30 / 100

/-- SURGE_BANDS list of (threshold, multiplier) pairs from services/pricing.py. -/
def SURGE_BANDS : List (ℚ × ℚ) := [(2, 1), (4, 6 / 5), (6, 7 / 5), (999, 8 / 5)]

/-- The for-loop body of calculate_surge: first band whose threshold exceeds
the demand/supply quotient wins; falling off the list returns the 1.6 cap.
The reason strings track the source text, with numeric formatting condensed
to toString. -/
def surgeLoop (active available : ℤ) (rq : ℚ) : List (ℚ × ℚ) → ℚ × Option String
  | [] => (8 / 5, some ("Extreme demand: " ++ toString active ++ " orders, "
      ++ toString available ++ " riders"))
  | (threshold, multiplier) :: rest =>
    if rq < threshold then
      if multiplier > 1 then
        (multiplier, some ("High demand: " ++ toString active ++ " orders, "
          ++ toString available ++ " riders"))
      else (1, none)
    else surgeLoop active available rq rest

/-- calculate_surge from services/pricing.py. -/
def calculate_surge (active_orders available_riders : ℤ) : ℚ × Option String :=
  if available_riders ≤ 0 then
    (8 / 5, some ("No riders available (" ++ toString active_orders ++ " active orders)"))
  else
    surgeLoop active_orders available_riders
      ((active_orders : ℚ) / (available_riders : ℚ)) SURGE_BANDS

/-- PriceBreakdown dataclass from services/pricing.py. -/
structure PriceBreakdown where
  distance_km : ℚ
  duration_min : ℤ
  vehicle_type : String
  rate_per_km : ℚ
  vehicle_multiplier : ℚ
  time_factor_key : String
  time_factor_value : ℚ
  base_cost : ℚ
  surge_multiplier : ℚ
  surge_reason : Option String
  addons_cost : ℚ
  batch_discount : ℚ
  subscription_discount : ℚ
  total_cost : ℚ
  rider_surge_bonus : ℚ
  deriving Repr, DecidableEq

/-- Python truthiness of an optional string (None and "" are falsy). -/
def pyTruthyStr : Option String → Bool
  | none => false
  | some s => !(s = "")

/-- calculate_price from services/pricing.py, translated clause by clause.
addons = None is modelled as the empty list (both make the addons loop a
no-op). -/
def calculate_price (distance_km : ℚ) (duration_min : ℤ) (weight_tier : String)
    (time_factor_key : String) (surge_multiplier : ℚ) (surge_reason : Option String)
    (addons : List String) (is_batch_eligible : Bool)
    (subscription_plan : Option String) (free_deliveries_remaining : ℤ) :
    PriceBreakdown :=
  let vehicle_type := determine_vehicle weight_tier
  let vehicle_mult := vehicleMultiplier vehicle_type
  let time_fact := timeFactor time_factor_key
  let base_cost := distance_km * RATE_PER_KM * vehicle_mult * time_fact
  let surged_cost := base_cost * surge_multiplier
  let rider_surge_bonus :=
    if surge_multiplier > 1 then (surged_cost - base_cost) * RIDER_SURGE_SHARE else 0
  let addons_cost := (addons.map addonPrice).sum
  let batch_discount := if is_batch_eligible then surged_cost * BATCH_DISCOUNT_PCT else 0
  let subscription_discount :=
    if pyTruthyStr subscription_plan ∧ free_deliveries_remaining > 0 then
      surged_cost
    else if pyTruthyStr subscription_plan then
      surged_cost * planDiscountPct (subscription_plan.getD "")
    else 0
  let total := surged_cost + addons_cost - batch_discount - subscription_discount
  let total := max total MINIMUM_CHARGE
  { distance_km := distance_km
    duration_min := duration_min
    vehicle_type := vehicle_type
    rate_per_km := RATE_PER_KM
    vehicle_multiplier := vehicle_mult
    time_factor_key := time_factor_key
    time_factor_value := time_fact
    base_cost := pyRound2 base_cost
    surge_multiplier := surge_multiplier
    surge_reason := surge_reason
    addons_cost := pyRound2 addons_cost
    batch_discount := pyRound2 batch_discount
    subscription_discount := pyRound2 subscription_discount
    total_cost := pyRound2 total
    rider_surge_bonus := pyRound2 rider_surge_bonus }

end Pricing

namespace Otp

/-- A stored OTP record in Redis at key otp:\x7border_id\x7d:\x7botp_type\x7d.
bcrypt is modelled by storing the plaintext code and comparing by string
equality (checkpw p (hashpw c) decides p = c). -/
structure OtpEntry where
  code : String
  attempts : ℕ
  deriving Repr, DecidableEq

/-- The dict returned by verify_otp: valid flag, optional error text and the
remaining-attempt count (absent keys on success are modelled as none / 0). -/
structure OtpResult where
  valid : Bool
  error : Option String
  remaining : ℕ
  deriving Repr, DecidableEq

/-- generate_otp from services/otp.py: stores the (hash of the) fresh code
with a zeroed attempt counter.  The plaintext code is the argument. -/
def generate_otp (code : String) : OtpEntry :=
  { code := code, attempts := 0 }

/-- verify_otp from services/otp.py.  The state is the Redis entry for the
(order, leg) key: none models both an expired and a never-generated key.
Returns the new state together with the response dict. -/
def verify_otp : Option OtpEntry → String → Option OtpEntry × OtpResult
  | none, _ =>
    (none, ⟨false, some "OTP expired. Please request a new one.", 0⟩)
  | some e, provided =>
    if e.attempts ≥ 3 then
      (some e, ⟨false, some "Too many attempts. Contact support.", 0⟩)
    else
      let e' : OtpEntry := { e with attempts := e.attempts + 1 }
      if provided = e.code then
        (none, ⟨true, none, 0⟩)
      else
        (some e', ⟨false, some "Incorrect OTP.", 2 - e.attempts⟩)

end Otp

namespace Orders

/-- OrderEvent row from models/order.py (fields used by the routers). -/
structure OrderEvent where
  from_status : Option String
  to_status : String
  actor_type : String
  actor_id : Option ℕ
  deriving Repr, DecidableEq

/-- The Order row fields read or written by the operations under study.
Timestamps are abstract naturals; rider ids are naturals. -/
structure Order where
  status : String
  pickup_rider_id : Option ℕ
  pickup_lat : Option ℚ
  pickup_lng : Option ℚ
  pickup_address : Option String
  pickup_confirmed_at : Option ℕ
  delivered_at : Option ℕ
  cancelled_at : Option ℕ
  deriving Repr, DecidableEq

/-- update_order_status from routers/orders.py.  The first argument is the
looked-up order (none models the 404 path).  On success it returns the
mutated order, the list of events appended by the call, and the
(old_status, new_status) response pair.  The source performs no transition
validation of any kind. -/
def update_order_status (order : Option Order) (new_status : String)
    (actor_type : String) (actor_id : Option ℕ) (now : ℕ) :
    Except ℕ (Order × List OrderEvent × String × String) :=
  match order with
  | none => Except.error 404
  | some o =>
    let old_status := o.status
    let o := { o with status := new_status }
    let o :=
      if new_status = "DELIVERED" then { o with delivered_at := some now }
      else if new_status = "CANCELLED" then { o with cancelled_at := some now }
      else o
    let event : OrderEvent :=
      { from_status := some old_status
        to_status := new_status
        actor_type := actor_type
        actor_id := actor_id }
    Except.ok (o, [event], old_status, new_status)

/-- verify_order_otp from routers/orders.py.  Takes the Redis OTP state for
the (order, leg) key and the looked-up order; returns the new OTP state, the
new order state, the events appended by the call and the OTP service
response.  Note the source mutates order.status before building the event
and then reads the already-mutated value for from_status. -/
def verify_order_otp (st : Option Otp.OtpEntry) (order : Option Order)
    (otp_type : String) (otp_code : String) (rider_id : Option ℕ) (now : ℕ) :
    Option Otp.OtpEntry × Option Order × List OrderEvent × Otp.OtpResult :=
  let res := Otp.verify_otp st otp_code
  let st' := res.1
  let result := res.2
  if result.valid then
    match order with
    | some o =>
      let o' :=
        if otp_type = "pickup" then
          { o with status := "PICKED_UP", pickup_confirmed_at := some now }
        else
          { o with status := "DELIVERED", delivered_at := some now }
      let event : OrderEvent :=
        { from_status := some o'.status
          to_status := if otp_type = "pickup" then "PICKED_UP" else "DELIVERED"
          actor_type := "RIDER"
          actor_id := rider_id }
      (st', some o', [event], result)
    | none => (st', none, [], result)
  else
    (st', order, [], result)

end Orders

namespace Payments

/-- ZONE_RADIUS_KM constant from routers/payments.py. -/
def ZONE_RADIUS_KM : ℚ := 25

/-- Rider row fields used by the assignment logic.  warehouse_loc is the
(lat, lng) of the rider's home warehouse when rider.warehouse_id and the
relationship are set, else none. -/
structure Rider where
  id : ℕ
  status : String
  current_lat : Option ℚ
  current_lng : Option ℚ
  warehouse_loc : Option (ℚ × ℚ)
  current_load : Option ℤ
  deriving Repr, DecidableEq

/-- Python falsiness of an optional float coordinate: None and 0.0 are falsy
(the source tests them with `not pickup_lat`). -/
def pyFalsyCoord : Option ℚ → Bool
  | none => true
  | some q => q = 0

/-- _rider_location from routers/payments.py: GPS if both coordinates are
set, else the home-warehouse location, else none. -/
def riderLocation (r : Rider) : Option (ℚ × ℚ) :=
  match r.current_lat, r.current_lng with
  | some la, some lg => some (la, lg)
  | _, _ => r.warehouse_loc

/-- The best-rider selection loop of _assign_nearest_pickup_rider: scan the
pool left to right keeping the strictly smallest travel distance, so the
first rider attaining the minimum wins.  dist is the get_distance oracle
(none models a raised exception or a missing distance_km); it is queried
as dist (rider location) (pickup location). -/
def selectBest (dist : ℚ × ℚ → ℚ × ℚ → Option (ℚ × ℤ)) (pickup : ℚ × ℚ) :
    List Rider → Option (Rider × ℚ × ℤ)
  | [] => none
  | r :: rest =>
    match riderLocation r with
    | none => selectBest dist pickup rest
    | some loc =>
      match dist loc pickup with
      | none => selectBest dist pickup rest
      | some (d, eta) =>
        match selectBest dist pickup rest with
        | none => some (r, d, eta)
        | some (r', d', eta') =>
          if d' < d then some (r', d', eta') else some (r, d, eta)

/-- The dict returned by _assign_nearest_pickup_rider on success. -/
structure Assignment where
  rider_id : ℕ
  distance_km : ℚ
  eta_min : ℤ
  deriving Repr, DecidableEq

/-- Result state of an assignment attempt: possibly-updated order, the rider
pool with the chosen rider's row updated in place (rows addressed by id),
and the events appended by the call. -/
structure AssignState where
  order : Orders.Order
  riders : List Rider
  events : List Orders.OrderEvent
  deriving Repr, DecidableEq

/-- _assign_nearest_pickup_rider from routers/payments.py.  hav is the
haversine_distance oracle, dist the get_distance oracle, geo the geocode
oracle for the order's pickup address.  The rider list stands for the
ON_DUTY query result, so it is filtered on status first. -/
def assignNearestPickupRider (hav : ℚ × ℚ → ℚ × ℚ → ℚ)
    (dist : ℚ × ℚ → ℚ × ℚ → Option (ℚ × ℤ)) (geo : Option (ℚ × ℚ))
    (order : Orders.Order) (allRiders : List Rider) :
    Option Assignment × AssignState :=
  let resolved :=
    if pyFalsyCoord order.pickup_lat || pyFalsyCoord order.pickup_lng then
      if Pricing.pyTruthyStr order.pickup_address then
        match geo with
        | some (la, lg) => { order with pickup_lat := some la, pickup_lng := some lg }
        | none => order
      else order
    else order
  if pyFalsyCoord resolved.pickup_lat || pyFalsyCoord resolved.pickup_lng then
    (none, ⟨resolved, allRiders, []⟩)
  else
    let pickup := (resolved.pickup_lat.getD 0, resolved.pickup_lng.getD 0)
    let riders := allRiders.filter (fun r => r.status = "ON_DUTY")
    if riders.isEmpty then (none, ⟨resolved, allRiders, []⟩)
    else
      let riders_with_gps :=
        riders.filter (fun r => r.current_lat.isSome && r.current_lng.isSome)
      let riders_warehouse_only :=
        riders.filter (fun r =>
          !(r.current_lat.isSome && r.current_lng.isSome) && (riderLocation r).isSome)
      let eligible := if !riders_with_gps.isEmpty then riders_with_gps
        else riders_warehouse_only
      if eligible.isEmpty then (none, ⟨resolved, allRiders, []⟩)
      else
        let in_zone := eligible.filter (fun r =>
          match riderLocation r with
          | some loc => hav pickup loc ≤ ZONE_RADIUS_KM
          | none => false)
        let pool := if !in_zone.isEmpty then in_zone else eligible
        match selectBest dist pickup pool with
        | none => (none, ⟨resolved, allRiders, []⟩)
        | some (best, d, eta) =>
          let old_status := resolved.status
          let order' := { resolved with
            pickup_rider_id := some best.id
            status := "PICKUP_RIDER_ASSIGNED" }
          let best' := { best with
            status := "ON_PICKUP"
            current_load := some (best.current_load.getD 0 + 1) }
          let riders' := allRiders.map (fun r => if r.id = best.id then best' else r)
          let event : Orders.OrderEvent :=
            { from_status := some old_status
              to_status := "PICKUP_RIDER_ASSIGNED"
              actor_type := "SYSTEM"
              actor_id := none }
          (some ⟨best.id, d, eta⟩, ⟨order', riders', [event]⟩)

/-- The response of the assign-rider endpoint. -/
inductive AssignResponse where
  | err (code : ℕ)
  | already_assigned (rider_id : ℕ)
  | assigned (a : Assignment)
  deriving Repr, DecidableEq

/-- assign_rider_to_order from routers/payments.py (the looked-up-order
path; a missing order would be a 404).  Checks run in source order: the
status guard precedes the already-assigned check, then assignment runs and
a failed assignment is a 503. -/
def assign_rider_to_order (hav : ℚ × ℚ → ℚ × ℚ → ℚ)
    (dist : ℚ × ℚ → ℚ × ℚ → Option (ℚ × ℤ)) (geo : Option (ℚ × ℚ))
    (order : Orders.Order) (allRiders : List Rider) :
    AssignResponse × AssignState :=
  if order.status ≠ "PAYMENT_CONFIRMED" then
    (AssignResponse.err 400, ⟨order, allRiders, []⟩)
  else
    match order.pickup_rider_id with
    | some rid => (AssignResponse.already_assigned rid, ⟨order, allRiders, []⟩)
    | none =>
      match assignNearestPickupRider hav dist geo order allRiders with
      | (none, st) => (AssignResponse.err 503, st)
      | (some a, st) => (AssignResponse.assigned a, st)

end Payments

namespace Scheduler

/-- BUSINESS_HOURS_START from config.py. -/
def BUSINESS_HOURS_START : ℕ := 8

/-- BUSINESS_HOURS_END from config.py. -/
def BUSINESS_HOURS_END : ℕ := 20

/-- CUTOFF_BUFFER_MIN from config.py. -/
def CUTOFF_BUFFER_MIN : ℕ := 90

/-- One entry of rider_schedules; shift bounds are minutes of the day. -/
structure RiderSchedule where
  shift_start : ℕ
  shift_end : ℕ
  max_pickups_per_hour : ℕ
  deriving Repr, DecidableEq

/-- TimeSlot dataclass; datetimes are minutes since an arbitrary epoch, so
the date is n / 1440 and the time of day is n % 1440. -/
structure TimeSlot where
  start : ℕ
  slot_end : ℕ
  available_capacity : ℕ
  deriving Repr, DecidableEq

/-- _calculate_slot_capacity from services/pickup_scheduler.py: sum the
hourly throughput of every rider whose shift covers the hour. -/
def calculateSlotCapacity (hour : ℕ) (rider_schedules : List RiderSchedule) : ℕ :=
  ((rider_schedules.filter (fun r =>
    decide (r.shift_start ≤ hour * 60) && decide (hour * 60 < r.shift_end))).map
    (fun r => r.max_pickups_per_hour)).sum

/-- The cutoff time of day computed by the source:
time(BUSINESS_HOURS_END - CUTOFF_BUFFER_MIN // 60, CUTOFF_BUFFER_MIN % 60),
in minutes of the day.  For the default 20:00 close and 90-minute buffer
this is 19:30, not 18:30. -/
def codeCutoffTime : ℕ :=
  (BUSINESS_HOURS_END - CUTOFF_BUFFER_MIN / 60) * 60 + CUTOFF_BUFFER_MIN % 60

/-- get_available_slots from services/pickup_scheduler.py.  now is minutes
since the epoch; booked is the scheduled_pickups dict as a total function
(absent keys give 0).  The hour+1 = 24 midnight branch of slot_end coincides
with start + 60 in minutes-since-epoch form (and is unreachable for the
configured business hours anyway). -/
def get_available_slots (now : ℕ) (rider_schedules : List RiderSchedule)
    (booked : ℕ → ℕ) (days_ahead : ℕ) : List TimeSlot :=
  let today := now / 1440
  (List.range (days_ahead + 1)).flatMap (fun day_offset =>
    let current_date := today + day_offset
    (List.range' BUSINESS_HOURS_START (BUSINESS_HOURS_END - BUSINESS_HOURS_START)).filterMap
      (fun hour =>
        let slot_start := current_date * 1440 + hour * 60
        if slot_start < now then none
        else if current_date = today ∧ now % 1440 ≥ codeCutoffTime then none
        else if slot_start < now + 30 then none
        else
          let capacity := calculateSlotCapacity hour rider_schedules
          let available := capacity - booked hour
          if available > 0 then
            some ⟨slot_start, slot_start + 60, available⟩
          else none))

end Scheduler

namespace RouteOpt

/-- MAX_DETOUR_KM from config.py. -/
def MAX_DETOUR_KM : ℚ := 2

/-- MAX_RETURN_PICKUPS from config.py. -/
def MAX_RETURN_PICKUPS : ℕ := 3

/-- A delivery/pickup point dict: coordinates plus its order id. -/
structure Point where
  lat : ℚ
  lng : ℚ
  order_id : String
  deriving Repr, DecidableEq

/-- OptimizedRoute dataclass from services/route_optimizer.py. -/
structure OptimizedRoute where
  sequence : List ℕ
  stop_details : List Point
  total_distance_km : ℚ
  total_duration_min : ℤ
  savings_vs_naive_km : ℚ
  deriving Repr, DecidableEq

/-- _build_distance_matrix_from_points from services/route_optimizer.py, as
a function of the node indices.  hav is the haversine oracle; api the
optional pre-fetched matrix, whose per-entry distance_km may be absent or
0.0 (both falsy, falling back to haversine).  Entries are integer meters. -/
def buildMatrix (hav : ℚ × ℚ → ℚ × ℚ → ℚ) (all_points : List (ℚ × ℚ))
    (api : Option (ℕ → ℕ → Option ℚ)) (i j : ℕ) : ℤ :=
  if i = j then 0
  else
    let pa := all_points.getD i (0, 0)
    let pb := all_points.getD j (0, 0)
    match api with
    | some m =>
      match m i j with
      | some d => if d = 0 then pyTrunc (hav pa pb * 1000) else pyTrunc (d * 1000)
      | none => pyTrunc (hav pa pb * 1000)
    | none => pyTrunc (hav pa pb * 1000)

/-- The naive sequential tour length in meters:
depot → 1 → 2 → ... → n-1 → depot. -/
def naiveDistance (mat : ℕ → ℕ → ℤ) (n : ℕ) : ℤ :=
  ((List.range (n - 1)).map (fun i => mat i (i + 1))).sum + mat (n - 1) 0

/-- Sum of the arc costs along a node sequence (the solution-extraction
walk, which also accumulates the final arc back to the depot because the
sequence passed in ends with node 0). -/
def pathCost (mat : ℕ → ℕ → ℤ) : List ℕ → ℤ
  | [] => 0
  | [_] => 0
  | a :: b :: rest => mat a b + pathCost mat (b :: rest)

/-- optimize_route from services/route_optimizer.py.  The OR-Tools solver is
an external black box, modelled as an oracle from the distance matrix and
node count to an optional visiting sequence; the real extraction always
yields a sequence that starts at the depot node 0 and visits each node once,
and none models a solver that found no solution in its time budget. -/
def optimize_route (hav : ℚ × ℚ → ℚ × ℚ → ℚ) (depot : ℚ × ℚ)
    (delivery_points : List Point) (api : Option (ℕ → ℕ → Option ℚ))
    (solver : (ℕ → ℕ → ℤ) → ℕ → Option (List ℕ)) : OptimizedRoute :=
  match delivery_points with
  | [] => ⟨[], [], 0, 0, 0⟩
  | [p] =>
    let d := hav depot (p.lat, p.lng)
    ⟨[0, 1, 0], [p], pyRound2 (d * 2), pyTrunc (d * 2 / 25 * 60), 0⟩
  | _ =>
    let all_points := depot :: delivery_points.map (fun p => (p.lat, p.lng))
    let n := all_points.length
    let mat := buildMatrix hav all_points api
    let naive := naiveDistance mat n
    match solver mat n with
    | none =>
      ⟨List.range n ++ [0], delivery_points,
        pyRound2 ((naive : ℚ) / 1000),
        pyTrunc ((naive : ℚ) / 1000 / 25 * 60), 0⟩
    | some tour =>
      let sequence := tour ++ [0]
      let optimized := pathCost mat sequence
      let stop_details := sequence.filterMap (fun idx =>
        if 0 < idx ∧ idx ≤ delivery_points.length then delivery_points.get? (idx - 1)
        else none)
      let total_km := pyRound2 ((optimized : ℚ) / 1000)
      let naive_km := pyRound2 ((naive : ℚ) / 1000)
      let savings := pyRound2 (naive_km - total_km)
      ⟨sequence, stop_details, total_km, pyTrunc (total_km / 25 * 60), max savings 0⟩

/-- A pickup record as returned by check_return_trip_pickup, carrying the
rounded detour_km the source writes into the dict before sorting by it. -/
structure ReturnPickup where
  lat : ℚ
  lng : ℚ
  order_id : String
  detour_km : ℚ
  deriving Repr, DecidableEq

/-- The detour cost computed for one pending pickup:
(courier → pickup) + (pickup → warehouse) − (courier → warehouse direct). -/
def detourOf (hav : ℚ × ℚ → ℚ × ℚ → ℚ) (rider_location warehouse_location : ℚ × ℚ)
    (p : Point) : ℚ :=
  hav rider_location (p.lat, p.lng) + hav (p.lat, p.lng) warehouse_location
    - hav rider_location warehouse_location

/-- The record appended for an eligible pickup: the pickup dict with the
rounded detour_km written into it. -/
def mkReturnPickup (hav : ℚ × ℚ → ℚ × ℚ → ℚ)
    (rider_location warehouse_location : ℚ × ℚ) (p : Point) : ReturnPickup :=
  ⟨p.lat, p.lng, p.order_id, pyRound2 (detourOf hav rider_location warehouse_location p)⟩

/-- The eligibility for-loop of check_return_trip_pickup: append each pickup
whose detour is at most the maximum. -/
def eligLoop (hav : ℚ × ℚ → ℚ × ℚ → ℚ) (rider_location warehouse_location : ℚ × ℚ)
    (max_detour_km : ℚ) (acc : List ReturnPickup) : List Point → List ReturnPickup
  | [] => acc
  | p :: rest =>
    if detourOf hav rider_location warehouse_location p ≤ max_detour_km then
      eligLoop hav rider_location warehouse_location max_detour_km
        (acc ++ [mkReturnPickup hav rider_location warehouse_location p]) rest
    else
      eligLoop hav rider_location warehouse_location max_detour_km acc rest

/-- check_return_trip_pickup from services/route_optimizer.py: keep pickups
whose detour is at most max_detour_km, then stable-sort ascending by the
stored (rounded) detour_km, exactly like list.sort(key=...). -/
def check_return_trip_pickup (hav : ℚ × ℚ → ℚ × ℚ → ℚ)
    (rider_location warehouse_location : ℚ × ℚ) (pending_pickups : List Point)
    (max_detour_km : ℚ) : List ReturnPickup :=
  (eligLoop hav rider_location warehouse_location max_detour_km [] pending_pickups).mergeSort
    (fun a b => decide (a.detour_km ≤ b.detour_km))

/-- The return-trip-check webhook's use of the matcher (routers/webhooks.py):
run the matcher with the configured maximum detour, then cap the list at
MAX_RETURN_PICKUPS. -/
def return_trip_check (hav : ℚ × ℚ → ℚ × ℚ → ℚ)
    (rider_location warehouse_location : ℚ × ℚ) (pending_pickups : List Point) :
    List ReturnPickup :=
  (check_return_trip_pickup hav rider_location warehouse_location pending_pickups
    MAX_DETOUR_KM).take MAX_RETURN_PICKUPS

end RouteOpt

/-! Helper lemmas about the rounding model, shared by the claim theorems. -/

theorem pyRound2_eq (q : ℚ) :
    pyRound2 q = (Int.floor (q * 100 + 1 / 2) : ℚ) / 100 := rfl

theorem le_pyRound2_of_le (m : ℤ) (q : ℚ) (h : (m : ℚ) / 100 ≤ q) :
    (m : ℚ) / 100 ≤ pyRound2 q := by
  have h1 : (m : ℚ) ≤ q * 100 := (div_le_iff₀ (by norm_num)).mp h
  have h2 : m ≤ Int.floor (q * 100 + 1 / 2) := Int.le_floor.mpr (by linarith)
  have h3 : (m : ℚ) ≤ (Int.floor (q * 100 + 1 / 2) : ℚ) := by exact_mod_cast h2
  rw [pyRound2_eq]
  linarith

theorem pyRound2_le_of_le (m : ℤ) (q : ℚ) (h : q ≤ (m : ℚ) / 100) :
    pyRound2 q ≤ (m : ℚ) / 100 := by
  have h1 : q * 100 ≤ (m : ℚ) := (le_div_iff₀ (by norm_num)).mp h
  have h2 : Int.floor (q * 100 + 1 / 2) < m + 1 := Int.floor_lt.mpr (by push_cast; linarith)
  have h3 : (Int.floor (q * 100 + 1 / 2) : ℚ) ≤ (m : ℚ) := by
    exact_mod_cast Int.lt_add_one_iff.mp h2
  rw [pyRound2_eq]
  linarith

theorem pyRound2_mono {a b : ℚ} (h : a ≤ b) : pyRound2 a ≤ pyRound2 b := by
  have h2 : Int.floor (a * 100 + 1 / 2) ≤ Int.floor (b * 100 + 1 / 2) :=
    Int.floor_le_floor (by linarith)
  have h3 : (Int.floor (a * 100 + 1 / 2) : ℚ) ≤ (Int.floor (b * 100 + 1 / 2) : ℚ) := by
    exact_mod_cast h2
  rw [pyRound2_eq, pyRound2_eq]
  linarith

theorem minCharge_le_pyRound2_max (t : ℚ) :
    Pricing.MINIMUM_CHARGE ≤ pyRound2 (max t Pricing.MINIMUM_CHARGE) := by
  have h : ((3500 : ℤ) : ℚ) / 100 = Pricing.MINIMUM_CHARGE := by
    norm_num [Pricing.MINIMUM_CHARGE]
  calc Pricing.MINIMUM_CHARGE = ((3500 : ℤ) : ℚ) / 100 := h.symm
    _ ≤ pyRound2 (max t Pricing.MINIMUM_CHARGE) :=
        le_pyRound2_of_le 3500 _ (by rw [h]; exact le_max_right _ _)

/-- C2: for every input (any distance, vehicle weight tier, time factor,
surge multiplier, addons, batch and subscription flags), the total_cost
produced by calculate_price is at least the minimum charge of ₹35. -/
theorem calculate_price_total_ge_minimum_charge (distance_km : ℚ) (duration_min : ℤ)
    (weight_tier time_factor_key : String) (surge_multiplier : ℚ)
    (surge_reason : Option String) (addons : List String) (is_batch_eligible : Bool)
    (subscription_plan : Option String) (free_deliveries_remaining : ℤ) :
    Pricing.MINIMUM_CHARGE ≤
      (Pricing.calculate_price distance_km duration_min weight_tier time_factor_key
        surge_multiplier surge_reason addons is_batch_eligible subscription_plan
        free_deliveries_remaining).total_cost :=
  minCharge_le_pyRound2_max _

/-- C10: calculate_surge is total and bounded: a non-positive
available-rider count takes the guarded branch returning the 1.6 cap with a
non-null reason, and for every positive rider count the multiplier is one of
1.0, 1.2, 1.4, 1.6 with a non-null reason exactly when it exceeds 1.0. -/
theorem calculate_surge_total_and_bounded (active available : ℤ) :
    (available ≤ 0 →
      (Pricing.calculate_surge active available).1 = 8 / 5 ∧
      (Pricing.calculate_surge active available).2 ≠ none) ∧
    (0 < available →
      ((Pricing.calculate_surge active available).1 = 1 ∨
       (Pricing.calculate_surge active available).1 = 6 / 5 ∨
       (Pricing.calculate_surge active available).1 = 7 / 5 ∨
       (Pricing.calculate_surge active available).1 = 8 / 5) ∧
      ((Pricing.calculate_surge active available).2 ≠ none ↔
        1 < (Pricing.calculate_surge active available).1)) := by
  constructor
  · intro h
    simp [Pricing.calculate_surge, h]
  · intro h
    have h' : ¬ available ≤ 0 := not_le.mpr h
    simp only [Pricing.calculate_surge, if_neg h', Pricing.SURGE_BANDS, Pricing.surgeLoop]
    split_ifs <;> (simp_all; try norm_num)

/-- Witness for C10 at concrete inputs: zero riders takes the guard, and 15
orders against 3 riders lands in a listed band. -/
theorem calculate_surge_total_and_bounded_witness :
    (Pricing.calculate_surge 15 0).1 = 8 / 5 ∧
    ((Pricing.calculate_surge 15 3).1 = 1 ∨ (Pricing.calculate_surge 15 3).1 = 6 / 5 ∨
     (Pricing.calculate_surge 15 3).1 = 7 / 5 ∨ (Pricing.calculate_surge 15 3).1 = 8 / 5) :=
  ⟨((calculate_surge_total_and_bounded 15 0).1 (by decide)).1,
   ((calculate_surge_total_and_bounded 15 3).2 (by decide)).1⟩

/-- C1 counterexample: updating a terminal CANCELLED order to DELIVERED does
not fail with any InvalidTransition error; the call succeeds and mutates the
order's status, contradicting the claim that illegal transitions fail and
leave state unchanged. -/
theorem update_order_status_cancelled_to_delivered :
    Orders.update_order_status
      (some { status := "CANCELLED", pickup_rider_id := none, pickup_lat := none,
              pickup_lng := none, pickup_address := none, pickup_confirmed_at := none,
              delivered_at := none, cancelled_at := some 5 })
      "DELIVERED" "USER" none 9 =
    Except.ok
      ({ status := "DELIVERED", pickup_rider_id := none, pickup_lat := none,
         pickup_lng := none, pickup_address := none, pickup_confirmed_at := none,
         delivered_at := some 9, cancelled_at := some 5 },
       [{ from_status := some "CANCELLED", to_status := "DELIVERED",
          actor_type := "USER", actor_id := none }], "CANCELLED", "DELIVERED") := by
  rfl

/-- C1 amended: update_order_status performs no transition validation at
all.  For every existing order and every requested status it succeeds,
overwrites the status with the requested one, and appends exactly one event
whose from_status is the status before the call. -/
theorem update_order_status_applies_any_status (o : Orders.Order)
    (new_status actor_type : String) (actor_id : Option ℕ) (now : ℕ) :
    ∃ o' : Orders.Order,
      Orders.update_order_status (some o) new_status actor_type actor_id now =
        Except.ok (o',
          [Orders.OrderEvent.mk (some o.status) new_status actor_type actor_id],
          o.status, new_status) ∧
      o'.status = new_status := by
  simp only [Orders.update_order_status]
  split_ifs <;> exact ⟨_, rfl, rfl⟩

/-- C8 (code bug): a successful pickup-OTP verification on an order in
status PICKUP_EN_ROUTE appends an event whose from_status is the
already-updated PICKED_UP rather than the prior PICKUP_EN_ROUTE, because the
source assigns order.status before reading it into the event. -/
theorem verify_order_otp_records_new_status_as_from_status :
    (Orders.verify_order_otp (some { code := "123456", attempts := 0 })
      (some { status := "PICKUP_EN_ROUTE", pickup_rider_id := some 1, pickup_lat := none,
              pickup_lng := none, pickup_address := none, pickup_confirmed_at := none,
              delivered_at := none, cancelled_at := none })
      "pickup" "123456" (some 1) 11).2.2.1 =
    [{ from_status := some "PICKED_UP", to_status := "PICKED_UP",
       actor_type := "RIDER", actor_id := some 1 }] := by
  rfl

/-- C5: starting from a fresh entry, three consecutive wrong codes each
increment the attempt counter; after the third failure the entry is
exhausted, so even the correct code on the fourth attempt is rejected and
the state is left unchanged; a correct code on a live entry verifies and
deletes the entry (single use); and a freshly regenerated code verifies
again. -/
theorem otp_three_failures_exhaust_code (e : Otp.OtpEntry) (w1 w2 w3 : String)
    (h0 : e.attempts = 0) (h1 : w1 ≠ e.code) (h2 : w2 ≠ e.code) (h3 : w3 ≠ e.code) :
    (Otp.verify_otp (some e) w1 =
      (some { code := e.code, attempts := 1 },
       { valid := false, error := some "Incorrect OTP.", remaining := 2 })) ∧
    (Otp.verify_otp (some { code := e.code, attempts := 1 }) w2 =
      (some { code := e.code, attempts := 2 },
       { valid := false, error := some "Incorrect OTP.", remaining := 1 })) ∧
    (Otp.verify_otp (some { code := e.code, attempts := 2 }) w3 =
      (some { code := e.code, attempts := 3 },
       { valid := false, error := some "Incorrect OTP.", remaining := 0 })) ∧
    (Otp.verify_otp (some { code := e.code, attempts := 3 }) e.code =
      (some { code := e.code, attempts := 3 },
       { valid := false, error := some "Too many attempts. Contact support.", remaining := 0 })) ∧
    (Otp.verify_otp (some e) e.code = (none, { valid := true, error := none, remaining := 0 })) ∧
    (Otp.verify_otp (some (Otp.generate_otp e.code)) e.code =
      (none, { valid := true, error := none, remaining := 0 })) := by
  obtain ⟨code, att⟩ := e
  simp only at h0 h1 h2 h3
  subst h0
  refine ⟨?_, ?_, ?_, ?_, ?_, ?_⟩ <;>
    simp [Otp.verify_otp, Otp.generate_otp, h1, h2, h3]

/-- Witness for C5 at a concrete code and three concrete wrong attempts. -/
theorem otp_three_failures_exhaust_code_witness :
    (Otp.verify_otp (some { code := "123456", attempts := 0 }) "000000" =
      (some { code := "123456", attempts := 1 },
       { valid := false, error := some "Incorrect OTP.", remaining := 2 })) ∧
    (Otp.verify_otp (some { code := "123456", attempts := 1 }) "111111" =
      (some { code := "123456", attempts := 2 },
       { valid := false, error := some "Incorrect OTP.", remaining := 1 })) ∧
    (Otp.verify_otp (some { code := "123456", attempts := 2 }) "222222" =
      (some { code := "123456", attempts := 3 },
       { valid := false, error := some "Incorrect OTP.", remaining := 0 })) ∧
    (Otp.verify_otp (some { code := "123456", attempts := 3 }) "123456" =
      (some { code := "123456", attempts := 3 },
       { valid := false, error := some "Too many attempts. Contact support.", remaining := 0 })) ∧
    (Otp.verify_otp (some { code := "123456", attempts := 0 }) "123456" =
      (none, { valid := true, error := none, remaining := 0 })) ∧
    (Otp.verify_otp (some (Otp.generate_otp "123456")) "123456" =
      (none, { valid := true, error := none, remaining := 0 })) :=
  otp_three_failures_exhaust_code { code := "123456", attempts := 0 } "000000" "111111"
    "222222" rfl (by decide) (by decide) (by decide)

/-- C3: when an order is batch-eligible and holds a subscription percentage
discount (a truthy plan name with no free deliveries remaining),
calculate_price applies both discounts as multiplications against the
surge-adjusted subtotal — the batch percentage of the surged cost and the
plan percentage of the same surged cost, in the order surge → batch →
subscription — and the resulting total is never negative (it is floored at
the ₹35 minimum, hence strictly positive). -/
theorem batch_and_subscription_discounts_on_surged (distance_km : ℚ)
    (duration_min : ℤ) (weight_tier time_factor_key : String) (surge_multiplier : ℚ)
    (surge_reason : Option String) (addons : List String) (plan : String)
    (free_deliveries_remaining : ℤ) (hplan : plan ≠ "")
    (hfree : free_deliveries_remaining ≤ 0) :
    (Pricing.calculate_price distance_km duration_min weight_tier time_factor_key
        surge_multiplier surge_reason addons true (some plan)
        free_deliveries_remaining).batch_discount =
      pyRound2 (distance_km * Pricing.RATE_PER_KM *
        Pricing.vehicleMultiplier (Pricing.determine_vehicle weight_tier) *
        Pricing.timeFactor time_factor_key * surge_multiplier *
        Pricing.BATCH_DISCOUNT_PCT) ∧
    (Pricing.calculate_price distance_km duration_min weight_tier time_factor_key
        surge_multiplier surge_reason addons true (some plan)
        free_deliveries_remaining).subscription_discount =
      pyRound2 (distance_km * Pricing.RATE_PER_KM *
        Pricing.vehicleMultiplier (Pricing.determine_vehicle weight_tier) *
        Pricing.timeFactor time_factor_key * surge_multiplier *
        Pricing.planDiscountPct plan) ∧
    (Pricing.calculate_price distance_km duration_min weight_tier time_factor_key
        surge_multiplier surge_reason addons true (some plan)
        free_deliveries_remaining).total_cost =
      pyRound2 (max
        (distance_km * Pricing.RATE_PER_KM *
            Pricing.vehicleMultiplier (Pricing.determine_vehicle weight_tier) *
            Pricing.timeFactor time_factor_key * surge_multiplier +
          (addons.map Pricing.addonPrice).sum -
          distance_km * Pricing.RATE_PER_KM *
            Pricing.vehicleMultiplier (Pricing.determine_vehicle weight_tier) *
            Pricing.timeFactor time_factor_key * surge_multiplier *
            Pricing.BATCH_DISCOUNT_PCT -
          distance_km * Pricing.RATE_PER_KM *
            Pricing.vehicleMultiplier (Pricing.determine_vehicle weight_tier) *
            Pricing.timeFactor time_factor_key * surge_multiplier *
            Pricing.planDiscountPct plan)
        Pricing.MINIMUM_CHARGE) ∧
    0 < (Pricing.calculate_price distance_km duration_min weight_tier time_factor_key
        surge_multiplier surge_reason addons true (some plan)
        free_deliveries_remaining).total_cost := by
  have ht : Pricing.pyTruthyStr (some plan) = true := by
    simp [Pricing.pyTruthyStr, hplan]
  have hgt : ¬ free_deliveries_remaining > 0 := by omega
  refine ⟨?_, ?_, ?_, ?_⟩ <;>
    simp only [Pricing.calculate_price, ht, if_true, if_false, ite_true, ite_false,
      eq_self_iff_true, Option.getD_some, true_and, if_neg hgt]
  exact lt_of_lt_of_le (by norm_num [Pricing.MINIMUM_CHARGE])
    (minCharge_le_pyRound2_max _)

/-- Witness for C3 at a 10 km bike order with a BUSINESS plan and no free
deliveries: batch 15% and subscription 5% both of the surged 100, total 80. -/
theorem batch_and_subscription_discounts_on_surged_witness :
    (Pricing.calculate_price 10 20 "LIGHT" "STANDARD" 1 none [] true (some "BUSINESS")
        0).batch_discount =
      pyRound2 (10 * Pricing.RATE_PER_KM *
        Pricing.vehicleMultiplier (Pricing.determine_vehicle "LIGHT") *
        Pricing.timeFactor "STANDARD" * 1 * Pricing.BATCH_DISCOUNT_PCT) ∧
    (Pricing.calculate_price 10 20 "LIGHT" "STANDARD" 1 none [] true (some "BUSINESS")
        0).subscription_discount =
      pyRound2 (10 * Pricing.RATE_PER_KM *
        Pricing.vehicleMultiplier (Pricing.determine_vehicle "LIGHT") *
        Pricing.timeFactor "STANDARD" * 1 * Pricing.planDiscountPct "BUSINESS") ∧
    (Pricing.calculate_price 10 20 "LIGHT" "STANDARD" 1 none [] true (some "BUSINESS")
        0).total_cost =
      pyRound2 (max
        (10 * Pricing.RATE_PER_KM *
            Pricing.vehicleMultiplier (Pricing.determine_vehicle "LIGHT") *
            Pricing.timeFactor "STANDARD" * 1 +
          (([] : List String).map Pricing.addonPrice).sum -
          10 * Pricing.RATE_PER_KM *
            Pricing.vehicleMultiplier (Pricing.determine_vehicle "LIGHT") *
            Pricing.timeFactor "STANDARD" * 1 * Pricing.BATCH_DISCOUNT_PCT -
          10 * Pricing.RATE_PER_KM *
            Pricing.vehicleMultiplier (Pricing.determine_vehicle "LIGHT") *
            Pricing.timeFactor "STANDARD" * 1 * Pricing.planDiscountPct "BUSINESS")
        Pricing.MINIMUM_CHARGE) ∧
    0 < (Pricing.calculate_price 10 20 "LIGHT" "STANDARD" 1 none [] true
        (some "BUSINESS") 0).total_cost :=
  batch_and_subscription_discounts_on_surged 10 20 "LIGHT" "STANDARD" 1 none []
    "BUSINESS" 0 (by decide) (by decide)

/-! Concrete fixtures for the rider-assignment claim. -/

/-- A constant haversine oracle: every pair is 1 km apart. -/
def fixHav : ℚ × ℚ → ℚ × ℚ → ℚ := fun _ _ => 1

/-- A constant travel-distance oracle: 2 km, 7 minutes. -/
def fixDist : ℚ × ℚ → ℚ × ℚ → Option (ℚ × ℤ) := fun _ _ => some (2, 7)

/-- A paid order awaiting its first pickup-rider assignment. -/
def fixOrderPaid : Orders.Order :=
  { status := "PAYMENT_CONFIRMED", pickup_rider_id := none, pickup_lat := some 1,
    pickup_lng := some 1, pickup_address := none, pickup_confirmed_at := none,
    delivered_at := none, cancelled_at := none }

/-- An order already carrying a pickup-rider assignment. -/
def fixOrderAssigned : Orders.Order :=
  { status := "PICKUP_RIDER_ASSIGNED", pickup_rider_id := some 9, pickup_lat := some 1,
    pickup_lng := some 1, pickup_address := none, pickup_confirmed_at := none,
    delivered_at := none, cancelled_at := none }

/-- A paid order that already has a courier but was never moved past
PAYMENT_CONFIRMED. -/
def fixOrderPaidAssigned : Orders.Order :=
  { status := "PAYMENT_CONFIRMED", pickup_rider_id := some 9, pickup_lat := some 1,
    pickup_lng := some 1, pickup_address := none, pickup_confirmed_at := none,
    delivered_at := none, cancelled_at := none }

/-- One on-duty rider with live GPS and an empty load. -/
def fixRider : Payments.Rider :=
  { id := 1, status := "ON_DUTY", current_lat := some 1, current_lng := some 1,
    warehouse_loc := none, current_load := some 0 }

/-- C4 counterexample: the first call assigns rider 1 and moves the order to
PICKUP_RIDER_ASSIGNED; the retry on the resulting state hits the
status-guard before the already-assigned check and fails with HTTP 400
instead of returning the same courier. -/
theorem assign_rider_retry_returns_400 :
    (Payments.assign_rider_to_order fixHav fixDist none fixOrderPaid [fixRider]).1 =
      Payments.AssignResponse.assigned ⟨1, 2, 7⟩ ∧
    (Payments.assign_rider_to_order fixHav fixDist none fixOrderPaid
      [fixRider]).2.order.pickup_rider_id = some 1 ∧
    (Payments.assign_rider_to_order fixHav fixDist none fixOrderPaid
      [fixRider]).2.order.status = "PICKUP_RIDER_ASSIGNED" ∧
    (Payments.assign_rider_to_order fixHav fixDist none
      (Payments.assign_rider_to_order fixHav fixDist none fixOrderPaid [fixRider]).2.order
      (Payments.assign_rider_to_order fixHav fixDist none fixOrderPaid
        [fixRider]).2.riders) =
      (Payments.AssignResponse.err 400,
       ⟨(Payments.assign_rider_to_order fixHav fixDist none fixOrderPaid [fixRider]).2.order,
        (Payments.assign_rider_to_order fixHav fixDist none fixOrderPaid [fixRider]).2.riders,
        []⟩) := by
  decide

/-- C4 amended: an order that already has a pickup courier is never
re-assigned and no courier load is ever incremented by the retry: when the
order's status is PAYMENT_CONFIRMED the call returns the existing courier id
with the state untouched, and in any other status it fails with HTTP 400,
also with the state untouched. -/
theorem assign_rider_already_assigned_no_mutation
    (hav : ℚ × ℚ → ℚ × ℚ → ℚ) (dist : ℚ × ℚ → ℚ × ℚ → Option (ℚ × ℤ))
    (geo : Option (ℚ × ℚ)) (o : Orders.Order) (riders : List Payments.Rider) (rid : ℕ)
    (h : o.pickup_rider_id = some rid) :
    (o.status = "PAYMENT_CONFIRMED" →
      Payments.assign_rider_to_order hav dist geo o riders =
        (Payments.AssignResponse.already_assigned rid, ⟨o, riders, []⟩)) ∧
    (o.status ≠ "PAYMENT_CONFIRMED" →
      Payments.assign_rider_to_order hav dist geo o riders =
        (Payments.AssignResponse.err 400, ⟨o, riders, []⟩)) := by
  constructor
  · intro hs
    simp [Payments.assign_rider_to_order, hs, h]
  · intro hs
    simp [Payments.assign_rider_to_order, hs]

/-- Witness for C4's amended claim at two concrete already-assigned orders,
one still PAYMENT_CONFIRMED and one past it. -/
theorem assign_rider_already_assigned_no_mutation_witness :
    (Payments.assign_rider_to_order fixHav fixDist none fixOrderPaidAssigned [fixRider] =
      (Payments.AssignResponse.already_assigned 9, ⟨fixOrderPaidAssigned, [fixRider], []⟩)) ∧
    (Payments.assign_rider_to_order fixHav fixDist none fixOrderAssigned [fixRider] =
      (Payments.AssignResponse.err 400, ⟨fixOrderAssigned, [fixRider], []⟩)) :=
  ⟨(assign_rider_already_assigned_no_mutation fixHav fixDist none fixOrderPaidAssigned
      [fixRider] 9 rfl).1 rfl,
   (assign_rider_already_assigned_no_mutation fixHav fixDist none fixOrderAssigned
      [fixRider] 9 rfl).2 (by decide)⟩

/-! Concrete fixtures for the route-optimizer claim. -/

/-- A zero haversine oracle (unused when a full api matrix is supplied). -/
def fixHavZero : ℚ × ℚ → ℚ × ℚ → ℚ := fun _ _ => 0

/-- A pre-fetched distance matrix making the sequential tour 0→1→2→0 cheap
(1 km arcs) and every other arc expensive (5 km). -/
def fixApi : ℕ → ℕ → Option ℚ := fun i j =>
  if i = 0 ∧ j = 1 then some 1
  else if i = 1 ∧ j = 2 then some 1
  else if i = 2 ∧ j = 0 then some 1
  else some 5

/-- Two delivery points. -/
def fixPts : List RouteOpt.Point := [⟨10, 10, "A"⟩, ⟨20, 20, "B"⟩]

/-- The distance matrix optimize_route builds for fixPts from fixApi. -/
def fixMat : ℕ → ℕ → ℤ :=
  RouteOpt.buildMatrix fixHavZero ((0, 0) :: fixPts.map (fun p => (p.lat, p.lng)))
    (some fixApi)

/-- A solver oracle returning the expensive feasible tour 0→2→1(→0). -/
def fixBadSolver : (ℕ → ℕ → ℤ) → ℕ → Option (List ℕ) := fun _ _ => some [0, 2, 1]

/-- A solver oracle that finds no solution within its budget. -/
def fixNoSolver : (ℕ → ℕ → ℤ) → ℕ → Option (List ℕ) := fun _ _ => none

/-- C6 counterexample: the code reports the solver tour's own length without
clamping it to the naive distance, so with a feasible but expensive solver
tour the returned total_distance_km (15) exceeds the naive sequential
distance (3, as returned by the fallback run on the same input). -/
theorem optimize_route_can_exceed_naive :
    (RouteOpt.optimize_route fixHavZero (0, 0) fixPts (some fixApi)
      fixBadSolver).total_distance_km = 15 ∧
    (RouteOpt.optimize_route fixHavZero (0, 0) fixPts (some fixApi)
      fixNoSolver).total_distance_km = 3 ∧
    ¬ (RouteOpt.optimize_route fixHavZero (0, 0) fixPts (some fixApi)
        fixBadSolver).total_distance_km ≤
      (RouteOpt.optimize_route fixHavZero (0, 0) fixPts (some fixApi)
        fixNoSolver).total_distance_km := by
  have h02 : fixMat 0 2 = 5000 := by
    norm_num [fixMat, RouteOpt.buildMatrix, fixApi, fixPts, fixHavZero, pyTrunc]
  have h21 : fixMat 2 1 = 5000 := by
    norm_num [fixMat, RouteOpt.buildMatrix, fixApi, fixPts, fixHavZero, pyTrunc]
  have h10 : fixMat 1 0 = 5000 := by
    norm_num [fixMat, RouteOpt.buildMatrix, fixApi, fixPts, fixHavZero, pyTrunc]
  have h01 : fixMat 0 1 = 1000 := by
    norm_num [fixMat, RouteOpt.buildMatrix, fixApi, fixPts, fixHavZero, pyTrunc]
  have h12 : fixMat 1 2 = 1000 := by
    norm_num [fixMat, RouteOpt.buildMatrix, fixApi, fixPts, fixHavZero, pyTrunc]
  have h20 : fixMat 2 0 = 1000 := by
    norm_num [fixMat, RouteOpt.buildMatrix, fixApi, fixPts, fixHavZero, pyTrunc]
  have hpath : RouteOpt.pathCost fixMat [0, 2, 1, 0] = 15000 := by
    simp [RouteOpt.pathCost, h02, h21, h10]
  have hrange : List.range 2 = [0, 1] := by decide
  have hnaive : RouteOpt.naiveDistance fixMat 3 = 3000 := by
    show ((List.range 2).map (fun i => fixMat i (i + 1))).sum + fixMat 2 0 = 3000
    rw [hrange]
    simp [h01, h12, h20]
  have e1 : (RouteOpt.optimize_route fixHavZero (0, 0) fixPts (some fixApi)
      fixBadSolver).total_distance_km = 15 := by
    show pyRound2 ((RouteOpt.pathCost fixMat ([0, 2, 1] ++ [0]) : ℚ) / 1000) = 15
    rw [show ([0, 2, 1] ++ [0] : List ℕ) = [0, 2, 1, 0] from rfl, hpath]
    rw [pyRound2_eq]
    norm_num
  have e2 : (RouteOpt.optimize_route fixHavZero (0, 0) fixPts (some fixApi)
      fixNoSolver).total_distance_km = 3 := by
    show pyRound2 ((RouteOpt.naiveDistance fixMat 3 : ℚ) / 1000) = 3
    rw [hnaive, pyRound2_eq]
    norm_num
  refine ⟨e1, e2, ?_⟩
  rw [e1, e2]
  norm_num

/-- C6 amended: when the solver fails, optimize_route returns the naive
sequential order with total_distance_km equal to the naive distance (so the
bound holds with equality); when the solver returns a tour, the reported
total_distance_km is that tour's length, unclamped — the bound against the
naive distance holds exactly when the solver's tour is no longer than the
naive tour — and only the reported savings is clamped at zero. -/
theorem optimize_route_fallback_and_unclamped_total
    (hav : ℚ × ℚ → ℚ × ℚ → ℚ) (depot : ℚ × ℚ) (p₁ p₂ : RouteOpt.Point)
    (rest : List RouteOpt.Point) (api : Option (ℕ → ℕ → Option ℚ))
    (solver : (ℕ → ℕ → ℤ) → ℕ → Option (List ℕ)) (mat : ℕ → ℕ → ℤ) (n : ℕ)
    (hmat : mat = RouteOpt.buildMatrix hav
      (depot :: (p₁ :: p₂ :: rest).map (fun p => (p.lat, p.lng))) api)
    (hn : n = (depot :: (p₁ :: p₂ :: rest).map (fun p => (p.lat, p.lng))).length) :
    (solver mat n = none →
      RouteOpt.optimize_route hav depot (p₁ :: p₂ :: rest) api solver =
        ⟨List.range n ++ [0], p₁ :: p₂ :: rest,
          pyRound2 ((RouteOpt.naiveDistance mat n : ℚ) / 1000),
          pyTrunc ((RouteOpt.naiveDistance mat n : ℚ) / 1000 / 25 * 60), 0⟩) ∧
    (∀ tour, solver mat n = some tour →
      (RouteOpt.optimize_route hav depot (p₁ :: p₂ :: rest) api
          solver).total_distance_km =
        pyRound2 ((RouteOpt.pathCost mat (tour ++ [0]) : ℚ) / 1000) ∧
      0 ≤ (RouteOpt.optimize_route hav depot (p₁ :: p₂ :: rest) api
          solver).savings_vs_naive_km ∧
      (RouteOpt.pathCost mat (tour ++ [0]) ≤ RouteOpt.naiveDistance mat n →
        (RouteOpt.optimize_route hav depot (p₁ :: p₂ :: rest) api
            solver).total_distance_km ≤
          pyRound2 ((RouteOpt.naiveDistance mat n : ℚ) / 1000))) := by
  subst hmat
  subst hn
  constructor
  · intro h
    simp only [RouteOpt.optimize_route, h]
  · intro tour h
    refine ⟨?_, ?_, ?_⟩
    · simp only [RouteOpt.optimize_route, h]
    · simp only [RouteOpt.optimize_route, h]
      exact le_max_right _ _
    · intro hle
      have hq : (RouteOpt.pathCost (RouteOpt.buildMatrix hav
          (depot :: (p₁ :: p₂ :: rest).map (fun p => (p.lat, p.lng))) api)
            (tour ++ [0]) : ℚ) ≤
          (RouteOpt.naiveDistance (RouteOpt.buildMatrix hav
            (depot :: (p₁ :: p₂ :: rest).map (fun p => (p.lat, p.lng))) api)
            (depot :: (p₁ :: p₂ :: rest).map (fun p => (p.lat, p.lng))).length : ℚ) := by
        exact_mod_cast hle
      simp only [RouteOpt.optimize_route, h]
      exact pyRound2_mono (by linarith)

/-- Witness for C6's amended claim at the concrete fixtures: the failing
solver yields the naive route, and the tour-returning solver yields that
tour's own length. -/
theorem optimize_route_fallback_and_unclamped_total_witness :
    (RouteOpt.optimize_route fixHavZero (0, 0) fixPts (some fixApi) fixNoSolver =
      ⟨List.range 3 ++ [0], fixPts, pyRound2 ((RouteOpt.naiveDistance fixMat 3 : ℚ) / 1000),
        pyTrunc ((RouteOpt.naiveDistance fixMat 3 : ℚ) / 1000 / 25 * 60), 0⟩) ∧
    (RouteOpt.optimize_route fixHavZero (0, 0) fixPts (some fixApi)
        fixBadSolver).total_distance_km =
      pyRound2 ((RouteOpt.pathCost fixMat ([0, 2, 1] ++ [0]) : ℚ) / 1000) :=
  ⟨(optimize_route_fallback_and_unclamped_total fixHavZero (0, 0) ⟨10, 10, "A"⟩
      ⟨20, 20, "B"⟩ [] (some fixApi) fixNoSolver fixMat 3 rfl rfl).1 rfl,
   ((optimize_route_fallback_and_unclamped_total fixHavZero (0, 0) ⟨10, 10, "A"⟩
      ⟨20, 20, "B"⟩ [] (some fixApi) fixBadSolver fixMat 3 rfl rfl).2 [0, 2, 1] rfl).1⟩

/-- C7 counterexample: at 08:00, with a rider shift covering all business
hours, the scheduler returns the current-day slot starting 19:00 (minute
1140), which is at-or-after the cutoff close_time − cutoff_buffer =
20:00 − 90min = 18:30 (minute 1110) — the code only compares now (not the
slot start) against a cutoff, and its cutoff is 19:30, not 18:30. -/
theorem get_available_slots_returns_slot_past_spec_cutoff :
    ((⟨1140, 1200, 3⟩ : Scheduler.TimeSlot) ∈
      Scheduler.get_available_slots 480 [⟨480, 1200, 3⟩] (fun _ => 0) 0) ∧
    1140 / 1440 = 480 / 1440 ∧
    Scheduler.BUSINESS_HOURS_END * 60 - Scheduler.CUTOFF_BUFFER_MIN ≤ 1140 % 1440 := by
  decide

/-- C7 amended: every returned slot starts at least 30 minutes after now,
spans one hour within business hours, and has strictly positive remaining
capacity equal to the shift-covering hourly throughput minus the booked
count for its hour; current-day slots are returned only while now's time of
day is before the code's cutoff time(close_hour − buffer // 60, buffer % 60)
(19:30 for the configured values) — there is no per-slot check against
close_time − cutoff_buffer, so a current-day slot may start at or after
that spec cutoff. -/
theorem get_available_slots_properties (now : ℕ)
    (scheds : List Scheduler.RiderSchedule) (booked : ℕ → ℕ) (days_ahead : ℕ)
    (s : Scheduler.TimeSlot)
    (hs : s ∈ Scheduler.get_available_slots now scheds booked days_ahead) :
    now + 30 ≤ s.start ∧
    s.slot_end = s.start + 60 ∧
    Scheduler.BUSINESS_HOURS_START * 60 ≤ s.start % 1440 ∧
    s.start % 1440 < Scheduler.BUSINESS_HOURS_END * 60 ∧
    0 < s.available_capacity ∧
    s.available_capacity =
      Scheduler.calculateSlotCapacity (s.start % 1440 / 60) scheds -
        booked (s.start % 1440 / 60) ∧
    (s.start / 1440 = now / 1440 → now % 1440 < Scheduler.codeCutoffTime) := by
  simp only [Scheduler.get_available_slots] at hs
  rw [List.mem_flatMap] at hs
  obtain ⟨off, hoff, hs⟩ := hs
  rw [List.mem_filterMap] at hs
  obtain ⟨hour, hhour, hslot⟩ := hs
  rw [List.mem_range'] at hhour
  obtain ⟨i, hi, rfl⟩ := hhour
  simp only [Scheduler.BUSINESS_HOURS_START, Scheduler.BUSINESS_HOURS_END] at hi hslot ⊢
  split_ifs at hslot with h1 h2 h3 h4
  injection hslot with hslot
  subst hslot
  dsimp only
  have hidx : ((now / 1440 + off) * 1440 + (8 + 1 * i) * 60) % 1440 / 60 = 8 + 1 * i := by
    omega
  refine ⟨by omega, rfl, by omega, by omega, h4, ?_, ?_⟩
  · rw [hidx]
  · intro hday
    have hoff0 : off = 0 := by omega
    rcases not_and_or.mp h2 with hcontra | hcut
    · exact absurd (by omega) hcontra
    · simp only [Scheduler.codeCutoffTime, Scheduler.BUSINESS_HOURS_END,
        Scheduler.CUTOFF_BUFFER_MIN] at hcut ⊢
      omega

/-- Witness for C7's amended claim: the 11:00 slot returned at 10:00 with a
single full-day rider shift. -/
theorem get_available_slots_properties_witness :
    600 + 30 ≤ (660 : ℕ) ∧
    (720 : ℕ) = 660 + 60 ∧
    Scheduler.BUSINESS_HOURS_START * 60 ≤ 660 % 1440 ∧
    660 % 1440 < Scheduler.BUSINESS_HOURS_END * 60 ∧
    0 < (3 : ℕ) ∧
    (3 : ℕ) = Scheduler.calculateSlotCapacity (660 % 1440 / 60) [⟨480, 1200, 3⟩] -
      (fun _ => (0 : ℕ)) (660 % 1440 / 60) ∧
    (660 / 1440 = 600 / 1440 → 600 % 1440 < Scheduler.codeCutoffTime) :=
  get_available_slots_properties 600 [⟨480, 1200, 3⟩] (fun _ => (0 : ℕ)) 0
    ⟨660, 720, 3⟩ (by decide)

/-- Membership in the eligibility loop's output: an accumulator element, or
the record built from a pending pickup whose detour is within the maximum. -/
theorem mem_eligLoop (hav : ℚ × ℚ → ℚ × ℚ → ℚ) (rl wl : ℚ × ℚ) (maxd : ℚ)
    (l : List RouteOpt.Point) (acc : List RouteOpt.ReturnPickup)
    (p : RouteOpt.ReturnPickup) :
    p ∈ RouteOpt.eligLoop hav rl wl maxd acc l ↔
      p ∈ acc ∨ ∃ pt ∈ l, RouteOpt.detourOf hav rl wl pt ≤ maxd ∧
        p = RouteOpt.mkReturnPickup hav rl wl pt := by
  induction l generalizing acc with
  | nil => simp [RouteOpt.eligLoop]
  | cons q rest ih =>
    by_cases hq : RouteOpt.detourOf hav rl wl q ≤ maxd
    · simp only [RouteOpt.eligLoop, if_pos hq, ih, List.mem_append, List.mem_cons]
      constructor
      · rintro (⟨hp | hp | hp⟩ | ⟨pt, hpt, hd, hp⟩)
        · exact Or.inl hp
        · exact Or.inr ⟨q, Or.inl rfl, hq, hp⟩
        · exact absurd hp (List.not_mem_nil p)
        · exact Or.inr ⟨pt, Or.inr hpt, hd, hp⟩
      · rintro (hp | ⟨pt, hpt | hpt, hd, hp⟩)
        · exact Or.inl (Or.inl hp)
        · exact Or.inl (Or.inr (Or.inl (by rw [hp, hpt])))
        · exact Or.inr ⟨pt, hpt, hd, hp⟩
    · simp only [RouteOpt.eligLoop, if_neg hq, ih, List.mem_cons]
      constructor
      · rintro (hp | ⟨pt, hpt, hd, hp⟩)
        · exact Or.inl hp
        · exact Or.inr ⟨pt, Or.inr hpt, hd, hp⟩
      · rintro (hp | ⟨pt, hpt | hpt, hd, hp⟩)
        · exact Or.inl hp
        · exact absurd (hpt ▸ hd) hq
        · exact Or.inr ⟨pt, hpt, hd, hp⟩

/-- C9: the return-trip webhook takes the matcher's eligible list — exactly
the records built from pending pickups whose detour (courier→pickup +
pickup→depot − courier→depot) is at most MAX_DETOUR_KM — sorts it ascending
by the stored detour_km, and caps it at MAX_RETURN_PICKUPS; every returned
record has detour_km ≤ MAX_DETOUR_KM, and when no more than
MAX_RETURN_PICKUPS pickups are eligible the cap drops none of them. -/
theorem return_trip_check_filters_sorts_caps (hav : ℚ × ℚ → ℚ × ℚ → ℚ)
    (rl wl : ℚ × ℚ) (pending : List RouteOpt.Point) :
    RouteOpt.return_trip_check hav rl wl pending =
      (RouteOpt.check_return_trip_pickup hav rl wl pending
        RouteOpt.MAX_DETOUR_KM).take RouteOpt.MAX_RETURN_PICKUPS ∧
    (RouteOpt.return_trip_check hav rl wl pending).length ≤
      RouteOpt.MAX_RETURN_PICKUPS ∧
    List.Pairwise (fun a b : RouteOpt.ReturnPickup => a.detour_km ≤ b.detour_km)
      (RouteOpt.return_trip_check hav rl wl pending) ∧
    (∀ p, p ∈ RouteOpt.check_return_trip_pickup hav rl wl pending
        RouteOpt.MAX_DETOUR_KM ↔
      ∃ pt ∈ pending, RouteOpt.detourOf hav rl wl pt ≤ RouteOpt.MAX_DETOUR_KM ∧
        p = RouteOpt.mkReturnPickup hav rl wl pt) ∧
    (∀ p, p ∈ RouteOpt.return_trip_check hav rl wl pending →
      p.detour_km ≤ RouteOpt.MAX_DETOUR_KM) ∧
    ((RouteOpt.check_return_trip_pickup hav rl wl pending
        RouteOpt.MAX_DETOUR_KM).length ≤ RouteOpt.MAX_RETURN_PICKUPS →
      RouteOpt.return_trip_check hav rl wl pending =
        RouteOpt.check_return_trip_pickup hav rl wl pending RouteOpt.MAX_DETOUR_KM) := by
  have hmem : ∀ p, p ∈ RouteOpt.check_return_trip_pickup hav rl wl pending
      RouteOpt.MAX_DETOUR_KM ↔
      ∃ pt ∈ pending, RouteOpt.detourOf hav rl wl pt ≤ RouteOpt.MAX_DETOUR_KM ∧
        p = RouteOpt.mkReturnPickup hav rl wl pt := by
    intro p
    rw [RouteOpt.check_return_trip_pickup, List.mem_mergeSort,
      mem_eligLoop hav rl wl RouteOpt.MAX_DETOUR_KM pending [] p]
    simp
  have hsorted : List.Pairwise
      (fun a b : RouteOpt.ReturnPickup => a.detour_km ≤ b.detour_km)
      (RouteOpt.check_return_trip_pickup hav rl wl pending RouteOpt.MAX_DETOUR_KM) := by
    rw [RouteOpt.check_return_trip_pickup]
    refine List.Pairwise.imp (fun hab => ?_)
      (@List.sorted_mergeSort _
        (fun a b : RouteOpt.ReturnPickup => decide (a.detour_km ≤ b.detour_km))
        (fun a b c hab hbc => ?_) (fun a b => ?_)
        (RouteOpt.eligLoop hav rl wl RouteOpt.MAX_DETOUR_KM [] pending))
    · exact of_decide_eq_true hab
    · simp only [decide_eq_true_eq] at hab hbc ⊢
      exact le_trans hab hbc
    · simp only [Bool.or_eq_true, decide_eq_true_eq]
      exact le_total a.detour_km b.detour_km
  refine ⟨rfl, ?_, ?_, hmem, ?_, ?_⟩
  · rw [RouteOpt.return_trip_check, List.length_take]
    exact min_le_left _ _
  · exact List.Pairwise.sublist (List.take_sublist _ _) hsorted
  · intro p hp
    have hp' : p ∈ RouteOpt.check_return_trip_pickup hav rl wl pending
        RouteOpt.MAX_DETOUR_KM := List.take_subset _ _ hp
    obtain ⟨pt, -, hd, rfl⟩ := (hmem p).mp hp'
    have h2 : ((200 : ℤ) : ℚ) / 100 = RouteOpt.MAX_DETOUR_KM := by
      norm_num [RouteOpt.MAX_DETOUR_KM]
    calc (RouteOpt.mkReturnPickup hav rl wl pt).detour_km
        = pyRound2 (RouteOpt.detourOf hav rl wl pt) := rfl
      _ ≤ ((200 : ℤ) : ℚ) / 100 := pyRound2_le_of_le 200 _ (by rw [h2]; exact hd)
      _ = RouteOpt.MAX_DETOUR_KM := h2
  · intro hlen
    rw [RouteOpt.return_trip_check]
    exact List.take_of_length_le hlen

/-- Witness for C9 at a concrete oracle and pending list, discharging the
no-truncation hypothesis: with no pending pickups the cap drops nothing. -/
theorem return_trip_check_filters_sorts_caps_witness :
    RouteOpt.return_trip_check fixHav (0, 0) (3, 3) [] =
      RouteOpt.check_return_trip_pickup fixHav (0, 0) (3, 3) []
        RouteOpt.MAX_DETOUR_KM :=
  (return_trip_check_filters_sorts_caps fixHav (0, 0) (3, 3) []).2.2.2.2.2
    (by simp [RouteOpt.check_return_trip_pickup, RouteOpt.eligLoop,
      RouteOpt.MAX_RETURN_PICKUPS])
